import Mathlib

/-!
Shallow embedding of `src/src/main.rs` of the local-crates.io-index mirror
server: a program that clones a remote git repository if absent, periodically
fetches and fast-forwards it on a timer, serves the tree over HTTP and shuts
down gracefully.

External library calls (libgit2 via the git2 crate, tokio timers, toml/serde
deserialization) are modelled at their documented interfaces: each fallible
library call is given an explicit success/failure input in an environment
record, and a Rust `expect` on a failed call is modelled as a `panicked`
result that unwinds out of the enclosing task, exactly as a Rust panic does.
-/

namespace CratesIndexMirror

/-- Commit object ids, abstracted to naturals. -/
abbrev Oid := Nat

/-- The working tree of the mirror: the commit it was last checked out at,
plus whether local modifications are present.  A fresh checkout of commit
`c` is `⟨c, false⟩`; a force checkout discards modifications. -/
structure WorkTree where
  base : Oid
  dirty : Bool
deriving DecidableEq

/-- State of the on-disk mirror repository that `pull_repo` reads and
mutates: the configured remotes (name, url), the `refs/heads/master`
reference (none when missing), the symbolic target of `HEAD`, the transient
`FETCH_HEAD` reference, and the working tree. -/
structure RepoState where
  remotes : List (String × String)
  masterRef : Option Oid
  headRef : String
  fetchHead : Option Oid
  workTree : WorkTree
deriving DecidableEq

/-- Classification returned by libgit2's `merge_analysis` on the fetched
commit, as the source consumes it: `is_up_to_date`, `is_fast_forward`, or
anything else (the final `else` branch of `pull_repo`). -/
inductive MergeAnalysisResult where
  | upToDate
  | fastForward
  | other
deriving DecidableEq

/-- A finite commit graph, as the list of (child, parent) edges; ancestry
of the commits involved in a cycle is computed from it. -/
structure CommitGraph where
  edges : List (Oid × Oid)
deriving DecidableEq

/-- The parents of a commit in the graph. -/
def parentsOf (g : CommitGraph) (c : Oid) : List Oid :=
  (g.edges.filter (fun e => e.1 = c)).map (fun e => e.2)

/-- One step of ancestor closure: keep the set and add every parent of a
member. -/
def ancStep (g : CommitGraph) (s : List Oid) : List Oid :=
  (s ++ s.flatMap (fun c => parentsOf g c)).dedup

/-- Fuel-bounded ancestor closure of a set of commits. -/
def ancestorsFuel : Nat → CommitGraph → List Oid → List Oid
  | 0, _, s => s
  | n + 1, g, s => ancestorsFuel n g (ancStep g s)

/-- Whether `a` is an ancestor of (or equal to) `b` in the graph:
membership in the ancestor closure of `b`, with enough fuel to saturate
any graph of this size. -/
def isAncestor (g : CommitGraph) (a b : Oid) : Bool :=
  decide (a ∈ ancestorsFuel (g.edges.length + 1) g [b])

/-- Modelled from libgit2's documented merge-analysis semantics, as the
source consumes it: against a head tip `h` and a fetched commit, the
analysis is up-to-date when the fetched commit is already an ancestor of
(or equal to) `h`, fast-forward when `h` is an ancestor of the fetched
commit (also when `HEAD` is unborn, where libgit2 reports
fast-forward+unborn), and otherwise neither — the source's final `else`
branch. -/
def analysisOf (g : CommitGraph) (headTip : Option Oid) (fetched : Oid) :
    MergeAnalysisResult :=
  match headTip with
  | none => MergeAnalysisResult.fastForward
  | some h =>
    if isAncestor g fetched h then MergeAnalysisResult.upToDate
    else if isAncestor g h fetched then MergeAnalysisResult.fastForward
    else MergeAnalysisResult.other

/-- Modelled from libgit2's documented `git_remote_fetch` semantics
("download new data and update tips") for the non-forced refspec
`refs/heads/*:refs/heads/*` at main.rs line 137: a successful fetch applies
the refspec to the matching local references, here the tracked
`refs/heads/master` — creating it at the remote's master tip when absent,
fast-forwarding it there when the local tip is an ancestor of the remote
tip, and refusing the update (non-forced refspec, non-fast-forward)
otherwise.  `remoteMaster = none` means the fetch brought no `master`
branch to apply. -/
def updateTips (g : CommitGraph) (masterRef : Option Oid)
    (remoteMaster : Option Oid) : Option Oid :=
  match masterRef, remoteMaster with
  | m, none => m
  | none, some r => some r
  | some m, some r => if isAncestor g m r then some r else some m

/-- Per-cycle environment: the ancestry graph of the commits involved, the
outcome of each fallible external (libgit2) call made by `pull_repo` in
source order, the remote `master` tip the fetch downloads and applies via
update-tips, and the commit id `FETCH_HEAD` resolves to (its first entry —
with a multi-branch remote this need not be the remote's `master` tip). -/
structure PullEnv where
  graph : CommitGraph
  createRemoteOk : Bool
  fetchOk : Bool
  remoteMaster : Option Oid
  fetchCommit : Oid
  fetchHeadFound : Bool
  annotatedOk : Bool
  analysisOk : Bool
  setTargetOk : Bool
  setHeadOk : Bool
  checkoutOk : Bool
deriving DecidableEq

/-- The successful outcomes of one pull cycle, one per branch of the
classification in `pull_repo` (lines 154-170 of main.rs). -/
inductive PullOutcome where
  | upToDate
  | fastForwarded
  | divergedUnsupported
deriving DecidableEq

/-- The `expect` call sites of `pull_repo`, in source order: each one panics
with its message when the underlying libgit2 call fails. -/
inductive PanicStage where
  | createRemote
  | fetch
  | findFetchHead
  | annotatedCommit
  | mergeAnalysis
  | findMaster
  | setTarget
  | setHead
  | checkout
deriving DecidableEq

/-- Result of running `pull_repo`: either it returns normally with an
outcome and the final repository state, or one of its `expect`s panicked at
the given stage, unwinding with the repository in the given state. -/
inductive PullResult where
  | ok (outcome : PullOutcome) (st : RepoState)
  | panicked (stage : PanicStage) (st : RepoState)
deriving DecidableEq

/-- Lines 131-133 of main.rs: `repo.find_remote("origin").unwrap_or_else(|_|
repo.remote("origin", url).expect(..))` — use the existing `origin` remote
when present, otherwise create one pointing at `url`; creating can itself
fail (`createOk = false`), which panics.  Returns the url of the remote used
and the possibly-extended repository state. -/
def resolveOrigin (st : RepoState) (url : String) (createOk : Bool) :
    Option (String × RepoState) :=
  match st.remotes.lookup "origin" with
  | some u => some (u, st)
  | none =>
    if createOk then
      some (url, { st with remotes := ("origin", url) :: st.remotes })
    else none

/-- Lines 136-140 of main.rs: the refspecs passed to `remote.fetch`. -/
def pullRefspecs : List String := ["refs/heads/*:refs/heads/*"]

/-- Credential kinds produced by the two credential callbacks in main.rs. -/
inductive Cred where
  | sshKey (username : String) (publicKey : String) (privateKey : String)
  | default
deriving DecidableEq

/-- Result of a credentials callback: a credential, or the panic raised by
`dirs::home_dir().expect(..)` when no home directory can be determined. -/
inductive CredResult where
  | ok (c : Cred)
  | panicHomeDir
deriving DecidableEq

/-- Line 126 of main.rs, the credentials callback installed by `pull_repo`:
`|_url, _username_from_url, _allowed_types| git2::Cred::default()` — it
unconditionally uses the transport's default credential mechanism. -/
def pullCredentials (_url : String) (_usernameFromUrl : Option String)
    (_allowedSshKey : Bool) : Cred :=
  Cred.default

/-- Lines 97-111 of main.rs, the credentials callback installed by
`clone_repo`: when the remote accepts SSH-key authentication, resolve the
home directory (panicking when it cannot be determined) and use the key pair
at `<home>/.ssh/id_rsa` / `id_rsa.pub` as the username from the url, or
"git" when absent; otherwise fall back to the default mechanism. -/
def cloneCredentials (usernameFromUrl : Option String) (allowedSshKey : Bool)
    (homeDir : Option String) : CredResult :=
  if allowedSshKey then
    match homeDir with
    | none => CredResult.panicHomeDir
    | some h =>
      CredResult.ok (Cred.sshKey (usernameFromUrl.getD "git")
        (h ++ "/.ssh/id_rsa.pub") (h ++ "/.ssh/id_rsa"))
  else
    CredResult.ok Cred.default

/-- The tip a reference name resolves to in the tracked state: the model
tracks `refs/heads/master`, the one reference the program reads and
updates; any other symbolic `HEAD` target is unborn here. -/
def refTip (st : RepoState) (name : String) : Option Oid :=
  if name = "refs/heads/master" then st.masterRef else none

/-- The repository state right after a successful fetch: the fetch's
update-tips step has been applied to the tracked `refs/heads/master`, and
`FETCH_HEAD` has been written. -/
def postFetch (env : PullEnv) (st : RepoState) : RepoState :=
  { st with
    masterRef := updateTips env.graph st.masterRef env.remoteMaster,
    fetchHead := some env.fetchCommit }

/-- The classification `merge_analysis` computes on a cycle (main.rs lines
150-152): the analysis of the fetched commit against the tip `HEAD`
resolves to in the post-fetch repository — i.e. after the fetch's
update-tips step has possibly moved `refs/heads/master`.  It does not
depend on the configured remotes. -/
def pullClassification (env : PullEnv) (st : RepoState) : MergeAnalysisResult :=
  analysisOf env.graph
    (if st.headRef = "refs/heads/master"
      then updateTips env.graph st.masterRef env.remoteMaster
      else none)
    env.fetchCommit

/-- Lines 124-171 of main.rs, `pull_repo`: resolve the `origin` remote,
fetch — which on success both applies the `refs/heads/*:refs/heads/*`
refspec's update-tips to the local `master` (see `updateTips`) and writes
`FETCH_HEAD` — look up `FETCH_HEAD`, turn it into an annotated commit, run
merge analysis, and branch: up-to-date — log only; fast-forward — move
`refs/heads/master` to the fetched commit, set `HEAD` to
`refs/heads/master`, force-checkout `HEAD` (a fresh tree of the fetched
commit, discarding local modifications); anything else — log that merging
is not implemented.  Every failed step is an `expect`, i.e. a panic. -/
def pull_repo (env : PullEnv) (st : RepoState) (url : String) : PullResult :=
  match resolveOrigin st url env.createRemoteOk with
  | none => PullResult.panicked PanicStage.createRemote st
  | some (_, st1) =>
    if env.fetchOk = false then PullResult.panicked PanicStage.fetch st1
    else
      let st2 : RepoState := postFetch env st1
      if env.fetchHeadFound = false then
        PullResult.panicked PanicStage.findFetchHead st2
      else if env.annotatedOk = false then
        PullResult.panicked PanicStage.annotatedCommit st2
      else if env.analysisOk = false then
        PullResult.panicked PanicStage.mergeAnalysis st2
      else
        match pullClassification env st1 with
        | MergeAnalysisResult.upToDate => PullResult.ok PullOutcome.upToDate st2
        | MergeAnalysisResult.other =>
          PullResult.ok PullOutcome.divergedUnsupported st2
        | MergeAnalysisResult.fastForward =>
          match st2.masterRef with
          | none => PullResult.panicked PanicStage.findMaster st2
          | some _ =>
            if env.setTargetOk = false then
              PullResult.panicked PanicStage.setTarget st2
            else
              let st3 : RepoState := { st2 with masterRef := some env.fetchCommit }
              if env.setHeadOk = false then
                PullResult.panicked PanicStage.setHead st3
              else
                let st4 : RepoState := { st3 with headRef := "refs/heads/master" }
                if env.checkoutOk = false then
                  PullResult.panicked PanicStage.checkout st4
                else
                  PullResult.ok PullOutcome.fastForwarded
                    { st4 with workTree := ⟨env.fetchCommit, false⟩ }

/-- Per-tick environment of the scheduler loop (lines 57-66 of main.rs):
whether `Repository::open(&repo_path)` succeeds this tick, and the pull
environment used when it does. -/
structure TickEnv where
  openOk : Bool
  pullEnv : PullEnv
deriving DecidableEq

/-- What the scheduler records for a tick that actually ran: the cycle was
skipped because the repository could not be opened, the cycle completed with
a pull outcome, or the cycle panicked at some stage. -/
inductive TickOutcome where
  | skippedOpenFailed
  | completed (o : PullOutcome)
  | panicked (stage : PanicStage)
deriving DecidableEq

/-- Lines 57-66 of main.rs: the spawned scheduler task.  Each loop iteration
awaits the interval tick, then `if let Ok(repo) = Repository::open(..)`
calls `pull_repo` — an open failure silently skips the body and the loop
continues.  A panic inside `pull_repo`, however, unwinds out of the loop and
terminates the spawned task, so no later tick of this task ever runs: the
run stops at the first panicked cycle. -/
def schedulerRun : List TickEnv → RepoState → String → List TickOutcome
  | [], _, _ => []
  | e :: es, st, url =>
    if e.openOk = false then
      TickOutcome.skippedOpenFailed :: schedulerRun es st url
    else
      match pull_repo e.pullEnv st url with
      | PullResult.ok o st' => TickOutcome.completed o :: schedulerRun es st' url
      | PullResult.panicked stage _ => [TickOutcome.panicked stage]

/-- Messages emitted by one scheduler tick: the unconditional "Pulling
repository updates..." line (line 61), the per-branch `println` of
`pull_repo`, and the message a failed `expect` prints while panicking. -/
inductive LogEvent where
  | pulling
  | alreadyUpToDate
  | performingFastForward
  | mergeNotImplemented
  | panicMsg (stage : PanicStage)
deriving DecidableEq

/-- Stages whose panic happens after the "Performing fast-forward merge"
line (line 157) has already been printed. -/
def panicAfterFfLog : PanicStage → Bool
  | PanicStage.findMaster => true
  | PanicStage.setTarget => true
  | PanicStage.setHead => true
  | PanicStage.checkout => true
  | _ => false

/-- The messages `pull_repo` emits on a given run, in order: one line per
successful classification branch, and for a panicking run the panic message
of the failed `expect` (preceded by the fast-forward line when the panic
happens inside the fast-forward branch). -/
def pullLogs (env : PullEnv) (st : RepoState) (url : String) : List LogEvent :=
  match pull_repo env st url with
  | PullResult.ok PullOutcome.upToDate _ => [LogEvent.alreadyUpToDate]
  | PullResult.ok PullOutcome.fastForwarded _ => [LogEvent.performingFastForward]
  | PullResult.ok PullOutcome.divergedUnsupported _ => [LogEvent.mergeNotImplemented]
  | PullResult.panicked s _ =>
    if panicAfterFfLog s then [LogEvent.performingFastForward, LogEvent.panicMsg s]
    else [LogEvent.panicMsg s]

/-- All messages emitted by one scheduler tick (lines 60-64): the "Pulling
repository updates..." line always, then the pull messages only when the
repository opened — the `if let Ok` has no else branch, so a failed open
emits nothing further. -/
def tickLogs (e : TickEnv) (st : RepoState) (url : String) : List LogEvent :=
  LogEvent.pulling :: (if e.openOk then pullLogs e.pullEnv st url else [])

/-- Whether a log event reports a failure (only a panic message does; none
of the ordinary `println` lines of the tick body reports a failure). -/
def isFailureLog : LogEvent → Bool
  | LogEvent.panicMsg _ => true
  | _ => false

/-- Lines 16-26 of main.rs: the parsed configuration.  `update_interval` is
a Rust `u64`, `port` a Rust `u16`; both are represented as naturals carrying
the machine range enforced at parse time. -/
structure CratesIoIndexRepo where
  git_url : String
  path : String
  update_interval : Nat
deriving DecidableEq

structure WebConfig where
  address : String
  port : Nat
deriving DecidableEq

structure Config where
  repo : CratesIoIndexRepo
  web : WebConfig
deriving DecidableEq

/-- Raw values extracted from config.toml before typed deserialization: each
field is absent or a TOML value (TOML integers are signed 64-bit, so the raw
integers are `Int`). -/
structure RawConfig where
  git_url : Option String
  path : Option String
  update_interval : Option Int
  address : Option String
  port : Option Int
deriving DecidableEq

/-- Deserializing a TOML integer into Rust `u64` (the type of
`update_interval`): any non-negative TOML integer is accepted (TOML
integers never exceed the signed 64-bit maximum, so no upper-bound check
arises); a negative value is a deserialization error. -/
def parseU64 (v : Int) : Option Nat :=
  if 0 ≤ v then some v.toNat else none

/-- Deserializing a TOML integer into Rust `u16` (the type of `port`):
accepted exactly when it lies in 0..65535. -/
def parseU16 (v : Int) : Option Nat :=
  if 0 ≤ v ∧ v < 65536 then some v.toNat else none

/-- Lines 31-32 of main.rs: `toml::from_str` into `Config` — every field
must be present and deserialize into its declared Rust type, otherwise the
`expect` aborts startup. -/
def parseConfig (r : RawConfig) : Option Config :=
  match r.git_url, r.path, r.update_interval, r.address, r.port with
  | some g, some p, some ui, some a, some pt =>
    match parseU64 ui, parseU16 pt with
    | some uiN, some ptN => some ⟨⟨g, p, uiN⟩, ⟨a, ptN⟩⟩
    | _, _ => none
  | _, _, _, _, _ => none

/-- Startup action taken for the mirror directory (lines 35-42 of main.rs). -/
inductive InitAction where
  | useExisting
  | cloneInvoked (url : String) (path : String)
deriving DecidableEq

/-- Lines 35-42 of main.rs: if `repo_path.exists()` the existing directory
is used as-is (only a log line is printed, nothing is verified), otherwise
`clone_repo(&config.repo.git_url, repo_path)` is invoked. -/
def startupInit (pathExists : Bool) (url : String) (path : String) : InitAction :=
  if pathExists then InitAction.useExisting else InitAction.cloneInvoked url path

/-- Modelled from the tokio library's documented `time::interval` semantics
(the source awaits `interval.tick()` at the top of each loop iteration, with
`interval = time::interval(Duration::from_secs(update_interval))`): the
first tick completes immediately, and tick `k+1` completes `period` seconds
after tick `k`.  `intervalTickTime period k` is the time, in seconds after
the task starts, at which tick `k` fires. -/
def intervalTickTime (period : Nat) (k : Nat) : Nat := period * k

/-- The event that wins the `tokio::select!` race after a successful bind
(lines 77-88 of main.rs). -/
inductive ShutdownEvent where
  | serverError (msg : String)
  | serverClean
  | interrupt
deriving DecidableEq

/-- The log lines printed on the shutdown path. -/
inductive ShutdownLog where
  | serverAbnormalClose (msg : String)
  | serverNormalClose
  | interruptReceived
  | gracefulShutdownDone
deriving DecidableEq

/-- Lines 77-92 of main.rs: whichever shutdown event wins the select, main
prints the branch's message, then the "graceful shutdown complete" line, and
returns `Ok(())` — so the process exit code is 0 on every one of these
paths.  The second component is the process exit code. -/
def mainAfterBind (e : ShutdownEvent) : List ShutdownLog × Nat :=
  (match e with
    | ShutdownEvent.serverError m => [ShutdownLog.serverAbnormalClose m,
        ShutdownLog.gracefulShutdownDone]
    | ShutdownEvent.serverClean => [ShutdownLog.serverNormalClose,
        ShutdownLog.gracefulShutdownDone]
    | ShutdownEvent.interrupt => [ShutdownLog.interruptReceived,
        ShutdownLog.gracefulShutdownDone],
   0)

/-- A concrete mirror state used by the witnesses and counterexamples: the
`origin` remote exists, `master` is at commit 1, `HEAD` is `master`, the
tree is a clean checkout of commit 1. -/
def stW : RepoState :=
  ⟨[("origin", "u")], some 1, "refs/heads/master", none, ⟨1, false⟩⟩

/-- A pull environment in which every external call succeeds and the remote
`master` tip equals the local one (commit 1): update-tips leaves `master` in
place and the cycle classifies as up-to-date. -/
def pullEnvUpToDate : PullEnv :=
  ⟨⟨[]⟩, true, true, some 1, 1, true, true, true, true, true, true⟩

/-- A pull environment whose cycle classifies as fast-forward: the remote's
`master` tip 3 is unrelated to the local `master` 4, so the non-forced
refspec refuses the tip update, while `FETCH_HEAD` resolves to commit 2, a
child of 4 — so merge analysis reports fast-forward against the unmoved
local tip. -/
def pullEnvFF : PullEnv :=
  ⟨⟨[(2, 4)]⟩, true, true, some 3, 2, true, true, true, true, true, true⟩

/-- A concrete mirror state for the fast-forward witness: `master` at
commit 4, `HEAD` at `master`, a clean tree of commit 4. -/
def stFF : RepoState :=
  ⟨[("origin", "u")], some 4, "refs/heads/master", none, ⟨4, false⟩⟩

/-- A pull environment in which every external call succeeds and the
fetched `master` tip (commit 3) is unrelated to the local `master` (commit
1): the tip update is refused and the cycle classifies as diverged. -/
def pullEnvDiverged : PullEnv :=
  ⟨⟨[]⟩, true, true, some 3, 3, true, true, true, true, true, true⟩

/-- The ordinary behind-upstream cycle: the remote `master` tip 2 is a
child of the local `master` 1, so the fetch's update-tips step itself
fast-forwards the local `master` to 2, and merge analysis then classifies
the cycle as up-to-date. -/
def pullEnvBehind : PullEnv :=
  ⟨⟨[(2, 1)]⟩, true, true, some 2, 2, true, true, true, true, true, true⟩

/-- A tick whose repository open succeeds but whose fetch fails. -/
def tickFetchFail : TickEnv :=
  ⟨true, ⟨⟨[]⟩, true, false, some 2, 2, true, true, true, true, true, true⟩⟩

/-- A tick in which everything succeeds and the mirror is up-to-date. -/
def tickGood : TickEnv := ⟨true, pullEnvUpToDate⟩

/-- A tick whose `Repository::open` fails. -/
def tickOpenFail : TickEnv := ⟨false, pullEnvUpToDate⟩

/-! Theorems.  Each claim's theorem carries the claim id in its doc
comment. -/

/-- Helper: a member of the set stays in it across one closure step. -/
theorem mem_ancStep_of_mem {g : CommitGraph} {s : List Oid} {a : Oid}
    (h : a ∈ s) : a ∈ ancStep g s := by
  simp [ancStep, List.mem_dedup, List.mem_append]
  exact Or.inl h

/-- Helper: a member of the starting set is in the ancestor closure at any
fuel. -/
theorem mem_ancestorsFuel_of_mem {g : CommitGraph} {a : Oid} :
    ∀ (n : Nat) (s : List Oid), a ∈ s → a ∈ ancestorsFuel n g s := by
  intro n
  induction n with
  | zero => intro s h; simpa [ancestorsFuel] using h
  | succ n ih =>
    intro s h
    simpa [ancestorsFuel] using ih _ (mem_ancStep_of_mem h)

/-- Helper: every commit is an ancestor of itself. -/
theorem isAncestor_self (g : CommitGraph) (a : Oid) : isAncestor g a a = true := by
  simp [isAncestor]
  exact mem_ancestorsFuel_of_mem _ _ (by simp)

/-- Helper: the classification does not depend on the configured remotes,
so resolving the `origin` remote before the fetch leaves it unchanged. -/
theorem pullClassification_remotes (env : PullEnv) (st : RepoState)
    (x : List (String × String)) :
    pullClassification env { st with remotes := x } = pullClassification env st :=
  rfl

/-- Helper: the classification is exactly the merge analysis of the fetched
commit against the tip `HEAD` resolves to in the post-fetch repository. -/
theorem pullClassification_eq_postFetch (env : PullEnv) (st : RepoState) :
    pullClassification env st =
      analysisOf env.graph (refTip (postFetch env st) (postFetch env st).headRef)
        env.fetchCommit :=
  rfl

/-- Helper: a present `master` reference is still present (at some tip)
after the fetch's update-tips step. -/
theorem updateTips_some (g : CommitGraph) (m : Oid) (r : Option Oid) :
    ∃ m', updateTips g (some m) r = some m' := by
  cases r with
  | none => exact ⟨m, rfl⟩
  | some r =>
    cases ha : isAncestor g m r with
    | true => exact ⟨r, by simp [updateTips, ha]⟩
    | false => exact ⟨m, by simp [updateTips, ha]⟩

/-- Claim C4: at startup the clone of `gitUrl` into `repoPath` is invoked
if and only if the path does not exist; when the path exists the clone is
skipped entirely and the existing directory is used as-is. -/
theorem initialize_iff_path_absent (url path : String) (b : Bool) :
    (startupInit b url path = InitAction.cloneInvoked url path ↔ b = false) ∧
    (startupInit b url path = InitAction.useExisting ↔ b = true) := by
  cases b <;> simp [startupInit]

/-- Claim C7: the clone-time credentials callback uses the SSH key pair at
`<home>/.ssh/id_rsa` / `id_rsa.pub` as the url's username (or "git" when
absent) whenever SSH public-key authentication is accepted, panicking when
the home directory cannot be determined; otherwise it uses the transport's
default mechanism, and no other mode is ever produced. -/
theorem clone_credentials_modes (un : Option String) (h : String) :
    cloneCredentials un true none = CredResult.panicHomeDir ∧
    cloneCredentials un true (some h) =
      CredResult.ok (Cred.sshKey (un.getD "git")
        (h ++ "/.ssh/id_rsa.pub") (h ++ "/.ssh/id_rsa")) ∧
    cloneCredentials un false none = CredResult.ok Cred.default ∧
    cloneCredentials un false (some h) = CredResult.ok Cred.default :=
  ⟨rfl, rfl, rfl, rfl⟩

/-- Claim C10: every shutdown path after a successful bind — server error,
clean server termination, or an interrupt — ends with exit code 0, and the
paths differ only in the single branch-specific log line printed before the
common "graceful shutdown complete" line. -/
theorem shutdown_exit_code_zero (e : ShutdownEvent) :
    (mainAfterBind e).2 = 0 ∧
    ∃ l, (mainAfterBind e).1 = [l, ShutdownLog.gracefulShutdownDone] := by
  cases e <;> simp [mainAfterBind]

/-- Claim C9, counterexample: with `update_interval = 3600` the first tick
of the scheduler's interval fires immediately at time 0, not 3600 seconds
after start as the claim states. -/
theorem first_tick_immediate_cex :
    intervalTickTime 3600 0 = 0 ∧ ¬ intervalTickTime 3600 0 = 3600 := by
  decide

/-- Helper: a scheduler run never records more outcomes than it has ticks
(each tick that fires contributes exactly one outcome, and a panic stops
the task early). -/
theorem schedulerRun_length_le (es : List TickEnv) (st : RepoState)
    (url : String) : (schedulerRun es st url).length ≤ es.length := by
  induction es generalizing st with
  | nil => simp [schedulerRun]
  | cons e es ih =>
    by_cases h : e.openOk = false
    · simpa [schedulerRun, h] using ih st
    · cases hp : pull_repo e.pullEnv st url with
      | ok o st' => simpa [schedulerRun, h, hp] using ih st'
      | panicked stage st' => simp [schedulerRun, h, hp]

/-- Claim C9, amended: the scheduler's timer fires immediately at process
start and then every `updateIntervalSeconds` (tokio's interval completes
its first tick immediately), and each tick that fires contributes at most
one pull-cycle outcome. -/
theorem scheduler_tick_schedule (period k : Nat) (es : List TickEnv)
    (st : RepoState) (url : String) :
    intervalTickTime period 0 = 0 ∧
    intervalTickTime period (k + 1) = intervalTickTime period k + period ∧
    (schedulerRun es st url).length ≤ es.length := by
  refine ⟨by simp [intervalTickTime], by simp [intervalTickTime, Nat.mul_succ], ?_⟩
  exact schedulerRun_length_le es st url

/-- Claim C2: on a cycle whose merge analysis classifies as fast-forward
(with every step succeeding and a `master` reference present), `pull_repo`
returns Fast-forwarded with `refs/heads/master` moved to the fetched
commit, `HEAD` set to `refs/heads/master`, and the working tree equal to a
fresh, clean checkout of the fetched commit (local modifications
discarded). -/
theorem pull_fast_forward_updates (env : PullEnv) (st : RepoState)
    (url : String) (m : Oid)
    (hcr : env.createRemoteOk = true)
    (hf : env.fetchOk = true)
    (hfh : env.fetchHeadFound = true)
    (han : env.annotatedOk = true)
    (haa : env.analysisOk = true)
    (hcls : pullClassification env st = MergeAnalysisResult.fastForward)
    (hm : st.masterRef = some m)
    (hst : env.setTargetOk = true)
    (hsh : env.setHeadOk = true)
    (hco : env.checkoutOk = true) :
    ∃ st', pull_repo env st url = PullResult.ok PullOutcome.fastForwarded st' ∧
      st'.masterRef = some env.fetchCommit ∧
      st'.headRef = "refs/heads/master" ∧
      st'.workTree = ⟨env.fetchCommit, false⟩ := by
  have hup : ∃ m', updateTips env.graph st.masterRef env.remoteMaster = some m' := by
    rw [hm]; exact updateTips_some env.graph m env.remoteMaster
  obtain ⟨m', hm'⟩ := hup
  cases h : st.remotes.lookup "origin" with
  | some u =>
    simp [pull_repo, resolveOrigin, postFetch, h, hcr, hf, hfh, han, haa, hcls,
      hm', hst, hsh, hco]
  | none =>
    have hcls2 : pullClassification env
        { st with remotes := ("origin", url) :: st.remotes } =
        MergeAnalysisResult.fastForward := by
      rw [pullClassification_remotes]; exact hcls
    simp [pull_repo, resolveOrigin, postFetch, h, hcr, hf, hfh, han, haa, hcls2,
      hm', hst, hsh, hco]

/-- Witness for C2 at a concrete repository and environment. -/
theorem pull_fast_forward_updates_witness :
    ∃ st', pull_repo pullEnvFF stFF "u" =
        PullResult.ok PullOutcome.fastForwarded st' ∧
      st'.masterRef = some pullEnvFF.fetchCommit ∧
      st'.headRef = "refs/heads/master" ∧
      st'.workTree = ⟨pullEnvFF.fetchCommit, false⟩ :=
  pull_fast_forward_updates pullEnvFF stFF "u" 4 rfl rfl rfl rfl rfl (by decide)
    rfl rfl rfl rfl

/-- Claim C3, counterexample: the ordinary behind-upstream cycle — local
`master` at commit 1, remote `master` at its child 2 — classifies as
up-to-date, yet the cycle mutates the `master` reference: the fetch's
update-tips step fast-forwards it to commit 2 before merge analysis runs,
so the final `master` differs from the initial one. -/
theorem pull_up_to_date_mutates_master_cex :
    pullClassification pullEnvBehind stW = MergeAnalysisResult.upToDate ∧
    pull_repo pullEnvBehind stW "u" =
      PullResult.ok PullOutcome.upToDate
        ⟨[("origin", "u")], some 2, "refs/heads/master", some 2, ⟨1, false⟩⟩ ∧
    ¬ (⟨[("origin", "u")], some 2, "refs/heads/master", some 2, ⟨1, false⟩⟩ :
        RepoState).masterRef = stW.masterRef := by
  decide

/-- Claim C3, amended: on a cycle whose merge analysis classifies as
up-to-date or as diverged (with each step up to the analysis succeeding),
the classification branch performs no mutation: `HEAD` and the working tree
are unchanged and the outcome is only reported.  In the diverged case —
with `FETCH_HEAD` resolving to the fetched `master` tip, or no `master`
fetched — the `master` reference is also unchanged, the non-forced refspec
having refused the non-fast-forward tip update; in the up-to-date case
`master` is unchanged by everything after the fetch, but the fetch's own
update-tips step may already have fast-forwarded it to the fetched
commit. -/
theorem pull_branch_no_mutation_after_fetch (env : PullEnv) (st : RepoState)
    (url : String)
    (hcr : env.createRemoteOk = true)
    (hf : env.fetchOk = true)
    (hfh : env.fetchHeadFound = true)
    (han : env.annotatedOk = true)
    (haa : env.analysisOk = true) :
    (pullClassification env st = MergeAnalysisResult.upToDate →
      ∃ st', pull_repo env st url = PullResult.ok PullOutcome.upToDate st' ∧
        st'.headRef = st.headRef ∧ st'.workTree = st.workTree ∧
        st'.masterRef = updateTips env.graph st.masterRef env.remoteMaster) ∧
    ((env.remoteMaster = none ∨ env.remoteMaster = some env.fetchCommit) →
      pullClassification env st = MergeAnalysisResult.other →
      ∃ st', pull_repo env st url =
          PullResult.ok PullOutcome.divergedUnsupported st' ∧
        st'.headRef = st.headRef ∧ st'.workTree = st.workTree ∧
        st'.masterRef = st.masterRef) := by
  constructor
  · intro hcls
    cases h : st.remotes.lookup "origin" with
    | some u =>
      simp [pull_repo, resolveOrigin, postFetch, h, hcr, hf, hfh, han, haa, hcls]
    | none =>
      have hcls2 : pullClassification env
          { st with remotes := ("origin", url) :: st.remotes } =
          MergeAnalysisResult.upToDate := by
        rw [pullClassification_remotes]; exact hcls
      simp [pull_repo, resolveOrigin, postFetch, h, hcr, hf, hfh, han, haa, hcls2]
  · intro hrm hcls
    have hmu : updateTips env.graph st.masterRef env.remoteMaster = st.masterRef := by
      rcases hrm with h0 | h0
      · cases hM : st.masterRef <;> simp [updateTips, h0, hM]
      · by_cases hH : st.headRef = "refs/heads/master"
        · cases hM : st.masterRef with
          | none =>
            exfalso
            simp [pullClassification, analysisOf, updateTips, h0, hH, hM,
              isAncestor_self] at hcls
          | some m =>
            cases ha : isAncestor env.graph m env.fetchCommit with
            | true =>
              exfalso
              simp [pullClassification, analysisOf, updateTips, h0, hH, hM, ha,
                isAncestor_self] at hcls
            | false => simp [updateTips, h0, hM, ha]
        · exfalso
          simp [pullClassification, analysisOf, hH] at hcls
    cases h : st.remotes.lookup "origin" with
    | some u =>
      simp [pull_repo, resolveOrigin, postFetch, h, hcr, hf, hfh, han, haa,
        hcls, hmu]
    | none =>
      have hcls2 : pullClassification env
          { st with remotes := ("origin", url) :: st.remotes } =
          MergeAnalysisResult.other := by
        rw [pullClassification_remotes]; exact hcls
      simp [pull_repo, resolveOrigin, postFetch, h, hcr, hf, hfh, han, haa,
        hcls2, hmu]

/-- Witness for the amended C3 at a concrete repository, instantiating the
up-to-date case with `pullEnvUpToDate` and the diverged case with
`pullEnvDiverged`. -/
theorem pull_branch_no_mutation_witness :
    (∃ st', pull_repo pullEnvUpToDate stW "u" =
        PullResult.ok PullOutcome.upToDate st' ∧
      st'.headRef = stW.headRef ∧ st'.workTree = stW.workTree ∧
      st'.masterRef = updateTips pullEnvUpToDate.graph stW.masterRef
        pullEnvUpToDate.remoteMaster) ∧
    (∃ st', pull_repo pullEnvDiverged stW "u" =
        PullResult.ok PullOutcome.divergedUnsupported st' ∧
      st'.headRef = stW.headRef ∧ st'.workTree = stW.workTree ∧
      st'.masterRef = stW.masterRef) :=
  ⟨(pull_branch_no_mutation_after_fetch pullEnvUpToDate stW "u" rfl rfl rfl
      rfl rfl).1 (by decide),
   (pull_branch_no_mutation_after_fetch pullEnvDiverged stW "u" rfl rfl rfl
      rfl rfl).2 (Or.inr rfl) (by decide)⟩

/-- Claim C1, counterexample: a fetch failure on the first cycle does not
merely skip that cycle — the scheduler run over two ticks stops at the
panicked first cycle and records no second outcome, so the next scheduled
tick never performs its retry. -/
theorem pull_failure_kills_loop_cex :
    schedulerRun [tickFetchFail, tickGood] stW "u" =
      [TickOutcome.panicked PanicStage.fetch] ∧
    ¬ (schedulerRun [tickFetchFail, tickGood] stW "u").length = 2 := by
  decide

/-- Claim C1, amended: a step failure inside `pull_repo` panics, surfacing
the failed step's message, and the panic terminates the scheduler task
permanently — the failing cycle is the last one, and no subsequent tick is
attempted. -/
theorem pull_panic_terminates_scheduler (e : TickEnv) (es : List TickEnv)
    (st st' : RepoState) (url : String) (stage : PanicStage)
    (hopen : e.openOk = true)
    (hp : pull_repo e.pullEnv st url = PullResult.panicked stage st') :
    schedulerRun (e :: es) st url = [TickOutcome.panicked stage] ∧
    (tickLogs e st url).any isFailureLog = true := by
  constructor
  · simp [schedulerRun, hopen, hp]
  · cases hb : panicAfterFfLog stage <;>
      simp [tickLogs, pullLogs, hopen, hp, hb, isFailureLog]

/-- Witness for the amended C1 at a concrete failing tick. -/
theorem pull_panic_terminates_scheduler_witness :
    schedulerRun [tickFetchFail, tickGood] stW "u" =
      [TickOutcome.panicked PanicStage.fetch] ∧
    (tickLogs tickFetchFail stW "u").any isFailureLog = true :=
  pull_panic_terminates_scheduler tickFetchFail [tickGood] stW stW "u"
    PanicStage.fetch rfl (by decide)

/-- Claim C5, counterexample: a tick whose `Repository::open` fails is
skipped and the loop survives to the next tick, but no failure is logged —
the tick emits only the unconditional "Pulling repository updates..." line,
and no emitted event is a failure report. -/
theorem open_failure_silent_cex :
    tickLogs tickOpenFail stW "u" = [LogEvent.pulling] ∧
    ¬ (tickLogs tickOpenFail stW "u").any isFailureLog = true ∧
    schedulerRun [tickOpenFail, tickGood] stW "u" =
      [TickOutcome.skippedOpenFailed, TickOutcome.completed PullOutcome.upToDate] := by
  decide

/-- Claim C5, amended: a tick at which the mirror cannot be opened is
skipped silently — the loop body emits only the generic pulling line, no
failure message — and the scheduler loop survives, attempting the
subsequent ticks unchanged. -/
theorem open_failure_skipped_silently (e : TickEnv) (es : List TickEnv)
    (st : RepoState) (url : String) (hopen : e.openOk = false) :
    schedulerRun (e :: es) st url =
      TickOutcome.skippedOpenFailed :: schedulerRun es st url ∧
    tickLogs e st url = [LogEvent.pulling] := by
  constructor
  · simp [schedulerRun, hopen]
  · simp [tickLogs, hopen]

/-- Witness for the amended C5 at a concrete failing-open tick. -/
theorem open_failure_skipped_silently_witness :
    schedulerRun [tickOpenFail, tickGood] stW "u" =
      TickOutcome.skippedOpenFailed :: schedulerRun [tickGood] stW "u" ∧
    tickLogs tickOpenFail stW "u" = [LogEvent.pulling] :=
  open_failure_skipped_silently tickOpenFail [tickGood] stW "u" rfl

/-- Claim C6: each pull cycle resolves the remote `origin` — reusing it
unchanged when present, otherwise creating it pointing at `gitUrl` — then
fetches with the single refspec `refs/heads/*:refs/heads/*`, and its
credentials callback always answers with the transport's default mechanism,
never the SSH-key logic used by the clone. -/
theorem pull_origin_refspec_default_creds (st1 st2 : RepoState)
    (url u : String)
    (h1 : st1.remotes.lookup "origin" = some u)
    (h2 : st2.remotes.lookup "origin" = none) :
    resolveOrigin st1 url true = some (u, st1) ∧
    resolveOrigin st2 url true =
      some (url, { st2 with remotes := ("origin", url) :: st2.remotes }) ∧
    pullRefspecs = ["refs/heads/*:refs/heads/*"] ∧
    (∀ (u' : String) (un : Option String) (a : Bool),
      pullCredentials u' un a = Cred.default) := by
  refine ⟨?_, ?_, rfl, fun _ _ _ => rfl⟩
  · simp [resolveOrigin, h1]
  · simp [resolveOrigin, h2]

/-- Witness for C6: a repository that already has `origin`, and one with no
remotes at all. -/
theorem pull_origin_refspec_default_creds_witness :
    resolveOrigin stW "v" true = some ("u", stW) ∧
    resolveOrigin ⟨[], some 1, "refs/heads/master", none, ⟨1, false⟩⟩ "v" true =
      some ("v", ⟨[("origin", "v")], some 1, "refs/heads/master", none,
        ⟨1, false⟩⟩) ∧
    pullRefspecs = ["refs/heads/*:refs/heads/*"] ∧
    (∀ (u' : String) (un : Option String) (a : Bool),
      pullCredentials u' un a = Cred.default) :=
  pull_origin_refspec_default_creds stW
    ⟨[], some 1, "refs/heads/master", none, ⟨1, false⟩⟩ "v" "u" (by decide) rfl

/-- Claim C8, counterexample: the configuration with `update_interval = 0`
and `port = 0` is accepted by config loading, not rejected at startup. -/
theorem config_zero_accepted_cex :
    parseConfig ⟨some "u", some "p", some 0, some "a", some 0⟩ =
      some ⟨⟨"u", "p", 0⟩, ⟨"a", 0⟩⟩ ∧
    ¬ parseConfig ⟨some "u", some "p", some 0, some "a", some 0⟩ = none := by
  decide

/-- Claim C8, amended: config loading accepts exactly the machine ranges of
the declared Rust types — `update_interval` any non-negative (64-bit) TOML
integer including 0, `port` any integer in 0..65535 including 0 — with all
five fields present; any missing field or out-of-range integer aborts
startup. -/
theorem config_accepts_machine_ranges (r : RawConfig) :
    (parseConfig r).isSome = true ↔
      (r.git_url.isSome ∧ r.path.isSome ∧ r.address.isSome ∧
       (∃ v, r.update_interval = some v ∧ 0 ≤ v) ∧
       (∃ w, r.port = some w ∧ 0 ≤ w ∧ w < 65536)) := by
  obtain ⟨g, p, ui, a, pt⟩ := r
  cases g <;> cases p <;> cases ui <;> cases a <;> cases pt <;>
    simp only [parseConfig, parseU64, parseU16] <;>
    (try split_ifs) <;> simp_all

end CratesIndexMirror
